import Mathlib

/-!
Shallow embedding of the django-jsonresponse decorator
(jsonresponse/__init__.py) and proofs about its rendering and
error-normalization behaviour.

Modelling conventions:
  - Python dict/list/str/int/bool/None values that are fed to json.dumps
    are modelled by the inductive type JVal; the association-list order of
    JVal.obj stands for the dict iteration order.
  - A Django request is modelled by its query-string dictionary (req.GET);
    req.GET.get(k, d) becomes Request.getD.
  - A handler outcome is an Except value: Except.error stands for a raised
    exception, Except.ok for a normal return.  An exception object is
    modelled by the Exc structure carrying exactly the attributes the code
    reads: __module__, owner, class name, str(e), and whether it is an
    instance of django.core.exceptions.ObjectDoesNotExist.
  - Module-level configuration read from django settings
    (JSONRESPONSE_DEFAULT_DEBUG / JSONRESPONSE_CALLBACK_NAME, lines 12-13)
    is a DjangoSettings value threaded through the functions.
-/

/-- A JSON-serializable Python value (the domain of json.dumps as used by
this program: None, bool, int, str, list, dict with string keys).  Floats
never occur in this code path and are not modelled. -/
inductive JVal where
  | null
  | bool (b : Bool)
  | num (n : Int)
  | str (s : String)
  | arr (l : List JVal)
  | obj (l : List (String × JVal))

/-- A request, reduced to the only part this code reads: the req.GET
query-string multidict (first binding of a key wins, as in QueryDict). -/
structure Request where
  GET : List (String × String)
deriving DecidableEq

/-- req.GET.get(k) — the raw lookup, none when the key is absent. -/
def Request.getP (req : Request) (k : String) : Option String :=
  (req.GET.find? (fun p => p.1 == k)).map (fun p => p.2)

/-- req.GET.get(k, d) — lookup with default. -/
def Request.getD (req : Request) (k : String) (d : String) : String :=
  (req.getP k).getD d

/-- The django settings attributes the module reads at import time
(lines 12-13); none models an absent attribute. -/
structure DjangoSettings where
  JSONRESPONSE_DEFAULT_DEBUG : Option Bool
  JSONRESPONSE_CALLBACK_NAME : Option String
deriving DecidableEq

/-- Line 12: DEFAULT_DEBUG = getattr(settings, "JSONRESPONSE_DEFAULT_DEBUG", False) -/
def DEFAULT_DEBUG (s : DjangoSettings) : Bool :=
  s.JSONRESPONSE_DEFAULT_DEBUG.getD false

/-- Line 13: CALLBACK_NAME = getattr(settings, "JSONRESPONSE_CALLBACK_NAME", "callback") -/
def CALLBACK_NAME (s : DjangoSettings) : String :=
  s.JSONRESPONSE_CALLBACK_NAME.getD "callback"

/-- The keyword arguments this program passes to json.dumps: indent,
ensure_ascii and (via the constructor) custom separators.  The debug
branch of render_data also sets encoding="utf8", which only affects the
decoding of byte strings and is a no-op on the unicode values modelled
here, so it carries no field. -/
structure DumpKw where
  indent : Option Nat
  ensure_ascii : Bool
  separators : Option (String × String)
deriving DecidableEq

/-- json.dumps keyword arguments left at their defaults. -/
def defaultKw : DumpKw := DumpKw.mk none true none

/-- Python 2.7 json: when separators is not given, item and key separators
are ", " and ": " (also when indent is set — the trailing space before the
newline is visible in the doctests of the source). -/
def sepsOf (kw : DumpKw) : String × String :=
  match kw.separators with
  | some s => s
  | none => (", ", ": ")

/-- One lowercase hexadecimal digit. -/
def hexDigit (n : Nat) : Char :=
  if n < 10 then Char.ofNat (48 + n) else Char.ofNat (97 + (n - 10))

/-- Four lowercase hexadecimal digits, as in the \uXXXX escapes of
json.dumps. -/
def hex4 (n : Nat) : String :=
  String.mk [hexDigit (n / 4096 % 16), hexDigit (n / 256 % 16),
             hexDigit (n / 16 % 16), hexDigit (n % 16)]

/-- The escaping json.dumps applies to one character of a string: the two
characters quote and backslash and the control characters are always
escaped; with ensure_ascii every character outside the printable ASCII
range 0x20-0x7e is escaped as \uXXXX (a surrogate pair beyond the BMP). -/
def escChar (ea : Bool) (c : Char) : String :=
  if c = Char.ofNat 34 then "\\\""
  else if c = Char.ofNat 92 then "\\\\"
  else if c = Char.ofNat 10 then "\\n"
  else if c = Char.ofNat 13 then "\\r"
  else if c = Char.ofNat 9 then "\\t"
  else if c = Char.ofNat 8 then "\\b"
  else if c = Char.ofNat 12 then "\\f"
  else if c.toNat < 32 then "\\u" ++ hex4 c.toNat
  else if ea && 126 < c.toNat then
    if c.toNat ≤ 65535 then "\\u" ++ hex4 c.toNat
    else "\\u" ++ hex4 (55296 + (c.toNat - 65536) / 1024) ++
         "\\u" ++ hex4 (56320 + (c.toNat - 65536) % 1024)
  else c.toString

/-- A JSON string literal: quoted, characters escaped. -/
def jsonEscape (ea : Bool) (s : String) : String :=
  "\"" ++ String.join (s.data.map (escChar ea)) ++ "\""

/-- The newline-plus-indentation json.dumps inserts at nesting level lvl
when indent is set; empty when it is not. -/
def nlIndent (ind : Option Nat) (lvl : Nat) : String :=
  match ind with
  | none => ""
  | some i => "\n" ++ String.mk (List.replicate (i * lvl) (Char.ofNat 32))

/-- The body of json.dumps on a value at nesting level lvl, following the
Python 2.7 encoder: empty containers render as two brackets; non-empty
containers open with a newline-indent, separate items with the item
separator followed by a newline-indent, and close after a newline-indent
of the enclosing level. -/
def dumpVal (kw : DumpKw) (lvl : Nat) : JVal → String
  | JVal.null => "null"
  | JVal.bool b => if b then "true" else "false"
  | JVal.num n => toString n
  | JVal.str s => jsonEscape kw.ensure_ascii s
  | JVal.arr l =>
      if l.isEmpty then "[]"
      else
        let nl1 := nlIndent kw.indent (lvl + 1)
        "[" ++ nl1 ++
          String.intercalate ((sepsOf kw).1 ++ nl1)
            (l.attach.map (fun x => dumpVal kw (lvl + 1) x.1)) ++
          nlIndent kw.indent lvl ++ "]"
  | JVal.obj l =>
      if l.isEmpty then "\x7b\x7d"
      else
        let nl1 := nlIndent kw.indent (lvl + 1)
        "\x7b" ++ nl1 ++
          String.intercalate ((sepsOf kw).1 ++ nl1)
            (l.attach.map (fun p =>
              jsonEscape kw.ensure_ascii p.1.1 ++ (sepsOf kw).2 ++
                dumpVal kw (lvl + 1) p.1.2)) ++
          nlIndent kw.indent lvl ++ "\x7d"
termination_by v => sizeOf v
decreasing_by
  · have h := List.sizeOf_lt_of_mem x.2
    simp only [JVal.arr.sizeOf_spec]
    omega
  · obtain ⟨⟨k, v⟩, hm⟩ := p
    have h := List.sizeOf_lt_of_mem hm
    simp only [Prod.mk.sizeOf_spec] at h
    simp only [JVal.obj.sizeOf_spec]
    omega

/-- json.dumps(data, **kwargs) as called by render_data. -/
def json.dumps (kw : DumpKw) (v : JVal) : String :=
  dumpVal kw 0 v

/-- A django HttpResponse, reduced to the three fields this code sets:
body, the Content-Type header and the status code. -/
structure HttpResponse where
  body : String
  content_type : String
  status : Nat
deriving DecidableEq

/-- The serializer_type argument of the decorator constructor
(lines 239-246): "api", "objects" or "plain". -/
inductive SType where
  | api
  | objects
  | plain
deriving DecidableEq

/-- The immutable configuration of one to_json decorator instance
(constructor, lines 239-249).  The mutable self.method dispatch slot is
threaded separately through to_json.wrapper. -/
structure to_json where
  serializer_type : SType
  error_code : Nat
  kwargs : DumpKw
deriving DecidableEq

/-- to_json.__init__ with its defaults: error_code=500 and no extra
json.dumps keyword arguments. -/
def to_json_init (st : SType) : to_json :=
  to_json.mk st 500 defaultKw

/-- A raised Python exception, reduced to the attributes this code reads:
__module__ (optional, via hasattr), owner.__name__ (optional, via
hasattr), the class name, str(e), and whether the object is an instance
of django.core.exceptions.ObjectDoesNotExist. -/
structure Exc where
  module : Option String
  owner : Option String
  className : String
  desc : String
  isODNE : Bool
deriving DecidableEq

/-- The IndexError raised by evaluating args[0] or args[1] on a too-short
argument tuple. -/
def indexError : Exc :=
  Exc.mk (some "exceptions") none "IndexError" "tuple index out of range" false

/-- The TypeError raised by json.dumps on a value that is not JSON
serializable. -/
def typeError : Exc :=
  Exc.mk (some "exceptions") none "TypeError" "is not JSON serializable" false

/-- The AttributeError raised by accessing .serialize on an object that
does not define it. -/
def attrError : Exc :=
  Exc.mk (some "exceptions") none "AttributeError" "object has no attribute serialize" false

/-- The ValueError raised by int() on a non-numeric string (reachable at
line 349 when the raise directive holds a non-numeric value). -/
def valueError (s : String) : Exc :=
  Exc.mk (some "exceptions") none "ValueError" ("invalid literal for int() with base 10: " ++ s) false

/-- Whether a character is whitespace stripped by Python int(). -/
def pyWs (c : Char) : Bool :=
  c.toNat = 32 || c.toNat = 9 || c.toNat = 10 || c.toNat = 13 ||
  c.toNat = 11 || c.toNat = 12

/-- A non-empty all-digit character list read as a decimal number. -/
def pyDigits : List Char → Option Nat
  | [] => none
  | l =>
      if l.all (fun c => c.isDigit) then
        some (l.foldl (fun acc c => acc * 10 + (c.toNat - 48)) 0)
      else none

/-- Python int(s) on a string: optional surrounding whitespace, optional
sign, decimal digits; none models the ValueError on anything else.  The
other int() argument this code produces is the default int 0 of
req.GET.get("raise", 0), handled at the call site. -/
def pyInt (s : String) : Option Int :=
  match (s.data.dropWhile pyWs).reverse.dropWhile pyWs |>.reverse with
  | [] => none
  | c :: rest =>
      if c = Char.ofNat 45 then (pyDigits rest).map (fun n => -(n : Int))
      else if c = Char.ofNat 43 then (pyDigits rest).map (fun n => (n : Int))
      else (pyDigits (c :: rest)).map (fun n => (n : Int))

/-- An object implementing the SerializableObject protocol of objects
mode: its Python truthiness and its serialize(request) method. -/
structure SObj where
  truthy : Bool
  serialize : Request → JVal

/-- A non-response value returned by a handler, as seen by
obj_to_response and json.dumps:
  - raw: a plain JSON-serializable value (api and plain modes);
  - single: one non-iterable object exposing serialize(request);
  - seqOf: an iterable of objects exposing serialize(request);
    its Python truthiness is its non-emptiness. -/
inductive PyVal where
  | raw (j : JVal)
  | single (o : SObj)
  | seqOf (l : List SObj)

/-- What a handler call evaluates to when it does not raise: either an
already-built HttpResponse (the isinstance escape hatch) or a value to be
rendered. -/
inductive Ret where
  | http (r : HttpResponse)
  | pyval (v : PyVal)

/-- Python truthiness of a JSON value. -/
def jTruthy : JVal → Bool
  | JVal.null => false
  | JVal.bool b => b
  | JVal.num n => n != 0
  | JVal.str s => !s.isEmpty
  | JVal.arr l => !l.isEmpty
  | JVal.obj l => !l.isEmpty

/-- Whether a JSON value is an instance of collections.Iterable: lists,
dicts and strings are, None, bools and ints are not. -/
def jIterable : JVal → Bool
  | JVal.arr _ => true
  | JVal.obj _ => true
  | JVal.str _ => true
  | _ => false

/-- The objects-mode shaping of a success value (lines 279-285):
    if isinstance(obj, Iterable):
        obj = [o.serialize(req) if obj else None for o in obj]
    elif obj:
        obj = obj.serialize(req)
    else:
        obj = None
The conditional inside the comprehension tests the truthiness of the
whole collection obj, not of the element o.  On a raw value the branches
fall out of iterability and truthiness: iterating a non-empty raw list,
dict or string reaches an element without a serialize attribute
(AttributeError), a truthy non-iterable raw value lacks serialize itself
(AttributeError), and a falsy value becomes None or the empty list. -/
def objectsData (req : Request) : PyVal → Except Exc JVal
  | PyVal.seqOf l =>
      Except.ok (JVal.arr (l.map (fun o => if l.isEmpty then JVal.null else o.serialize req)))
  | PyVal.single o =>
      Except.ok (if o.truthy then o.serialize req else JVal.null)
  | PyVal.raw j =>
      if jIterable j then
        match j with
        | JVal.arr l => if l.isEmpty then Except.ok (JVal.arr []) else Except.error attrError
        | JVal.obj l => if l.isEmpty then Except.ok (JVal.arr []) else Except.error attrError
        | JVal.str s => if s.isEmpty then Except.ok (JVal.arr []) else Except.error attrError
        | _ => Except.error attrError
      else if jTruthy j then Except.error attrError
      else Except.ok JVal.null

/-- obj_to_response (lines 278-287): objects mode shapes the value, the
other modes pass it through; the result is the success-envelope dict
fields (err, data).  The data component is still a PyVal because api mode
puts the raw return value in the envelope unchanged, serializable or
not. -/
def to_json.obj_to_response (self : to_json) (req : Request) (obj : PyVal) :
    Except Exc (Int × PyVal) :=
  if self.serializer_type = SType.objects then
    (objectsData req obj).map (fun j => (0, PyVal.raw j))
  else
    Except.ok (0, obj)

/-- err_to_response (lines 289-307): the error envelope, with the
qualified class name assembled from __module__ (dot-suffixed, when
present), owner.__name__ (dot-suffixed, when present) and the class
name. -/
def to_json.err_to_response (err : Exc) : JVal :=
  let err_module := match err.module with
    | some m => m ++ "."
    | none => ""
  let err_module := match err.owner with
    | some o => err_module ++ (o ++ ".")
    | none => err_module
  let err_class := err_module ++ err.className
  JVal.obj [("err", JVal.num 1),
            ("err_class", JVal.str err_class),
            ("err_desc", JVal.str err.desc),
            ("data", JVal.null)]

/-- The truthy query-directive values recognized by render_data
(lines 311-312): req.GET.get(k, default).lower() in this tuple. -/
def truthyStrs : List String := ["true", "t", "1", "on"]

/-- Python str.lower() on a query-directive value, character by
character. -/
def pyLower (s : String) : String :=
  String.mk (s.data.map Char.toLower)

/-- The json.dumps keyword arguments render_data assembles
(lines 310-321): start from the constructor kwargs; when the process-wide
default or the debug/decode directive turns debug on, set indent to 4 and
ensure_ascii to False (the encoding="utf8" it also sets is a no-op here,
see DumpKw). -/
def to_json.dump_kwargs (S : DjangoSettings) (self : to_json) (req : Request) : DumpKw :=
  let debug := DEFAULT_DEBUG S
  let debug := debug || truthyStrs.contains (pyLower (req.getD "debug" "false"))
  let debug := debug || truthyStrs.contains (pyLower (req.getD "decode" "0"))
  if debug then DumpKw.mk (some 4) false self.kwargs.separators
  else self.kwargs

/-- render_data (lines 309-328): serialize data with the assembled
keyword arguments; under format=jsonp wrap the text in a callback call
(callback directive, falling back to CALLBACK_NAME) and switch the
content type to application/javascript; append the charset suffix. -/
def to_json.render_data (S : DjangoSettings) (self : to_json) (req : Request)
    (data : JVal) (status : Nat) : HttpResponse :=
  let format := req.getD "format" "json"
  let jsonp_cb := req.getD "callback" (CALLBACK_NAME S)
  let plain := json.dumps (to_json.dump_kwargs S self req) data
  if format = "jsonp" then
    HttpResponse.mk (jsonp_cb ++ "(" ++ plain ++ ");")
      "application/javascript; charset=UTF-8" status
  else
    HttpResponse.mk plain "application/json; charset=UTF-8" status

/-- The except-branch of api (lines 345-354): logging is out of scope;
int(req.GET.get("raise", 0)) re-raises the caught exception when
non-zero (and itself raises ValueError on a non-numeric directive);
otherwise the error envelope is rendered with status 404 for
ObjectDoesNotExist and self.error_code for everything else. -/
def to_json.on_error (S : DjangoSettings) (self : to_json) (req : Request)
    (e : Exc) : Except Exc HttpResponse :=
  let rendered := Except.ok (to_json.render_data S self req
    (to_json.err_to_response e) (if e.isODNE then 404 else self.error_code))
  match req.getP "raise" with
  | none => rendered
  | some s =>
      match pyInt s with
      | none => Except.error (valueError s)
      | some n => if n != 0 then Except.error e else rendered

/-- The serializable view of a success-envelope data component:
json.dumps accepts a raw JSON value and raises TypeError on an object
or a sequence of objects. -/
def pyValToJson : PyVal → Option JVal
  | PyVal.raw j => some j
  | _ => none

/-- api (lines 337-355).  fres is the outcome of the handler call
f(*args) made inside the try block: Except.error models a raised
exception.  An already-built HttpResponse passes through; otherwise the
success envelope is built (an exception inside obj_to_response is caught
by the same except branch) and rendered with status 200.  The final
json.dumps happens in render_data, outside the try block, so its
TypeError on an unserializable envelope propagates. -/
def to_json.api (S : DjangoSettings) (self : to_json) (req : Request)
    (fres : Except Exc Ret) : Except Exc HttpResponse :=
  match fres with
  | Except.error e => to_json.on_error S self req e
  | Except.ok (Ret.http r) => Except.ok r
  | Except.ok (Ret.pyval v) =>
      match to_json.obj_to_response self req v with
      | Except.error e => to_json.on_error S self req e
      | Except.ok (err, data) =>
          match pyValToJson data with
          | none => Except.error typeError
          | some j =>
              Except.ok (to_json.render_data S self req
                (JVal.obj [("err", JVal.num err), ("data", j)]) 200)

/-- One positional argument of a wrapper invocation, viewed through the
two capabilities the code uses on it: whether getattr(arg, f.__name__)
is a bound method with a truthy im_self (the convention-detection probe
of line 263), and the request view consumed by api and render_data when
the argument sits in the request position. -/
structure Arg where
  bound : Bool
  req : Request

/-- A wrapped handler: a function of the full positional argument list,
whose outcome is a return value or a raised exception. -/
abbrev HandlerF := List Arg → Except Exc Ret

/-- plain_func (lines 364-369): call the handler first (its exceptions
propagate — there is no try block), pass an HttpResponse through, then
render with the request taken from args[0] (IndexError when absent) and
the implicit status 200.  The json.dumps TypeError on an unserializable
value propagates. -/
def to_json.plain_func (S : DjangoSettings) (self : to_json)
    (f : HandlerF) (args : List Arg) : Except Exc HttpResponse :=
  match f args with
  | Except.error e => Except.error e
  | Except.ok (Ret.http r) => Except.ok r
  | Except.ok (Ret.pyval v) =>
      match args.head? with
      | none => Except.error indexError
      | some a =>
          match pyValToJson v with
          | none => Except.error typeError
          | some j => Except.ok (to_json.render_data S self a.req j 200)

/-- plain_method (lines 357-362): as plain_func, with the request taken
from args[1] (after the receiver). -/
def to_json.plain_method (S : DjangoSettings) (self : to_json)
    (f : HandlerF) (args : List Arg) : Except Exc HttpResponse :=
  match f args with
  | Except.error e => Except.error e
  | Except.ok (Ret.http r) => Except.ok r
  | Except.ok (Ret.pyval v) =>
      match args[1]? with
      | none => Except.error indexError
      | some a =>
          match pyValToJson v with
          | none => Except.error typeError
          | some j => Except.ok (to_json.render_data S self a.req j 200)

/-- api_func (lines 331-332): self.api(f, args[0], *args) — args[0] is
evaluated before the call, raising IndexError on an empty tuple. -/
def to_json.api_func (S : DjangoSettings) (self : to_json)
    (f : HandlerF) (args : List Arg) : Except Exc HttpResponse :=
  match args.head? with
  | none => Except.error indexError
  | some a => to_json.api S self a.req (f args)

/-- api_method (lines 334-335): self.api(f, args[1], *args). -/
def to_json.api_method (S : DjangoSettings) (self : to_json)
    (f : HandlerF) (args : List Arg) : Except Exc HttpResponse :=
  match args[1]? with
  | none => Except.error indexError
  | some a => to_json.api S self a.req (f args)

/-- The four values the memoized self.method slot can take. -/
inductive MKind where
  | plain_func
  | api_func
  | plain_method
  | api_method
deriving DecidableEq

/-- Calling the memoized self.method(f, *args). -/
def to_json.dispatch (S : DjangoSettings) (self : to_json) (m : MKind)
    (f : HandlerF) (args : List Arg) : Except Exc HttpResponse :=
  match m with
  | MKind.plain_func => to_json.plain_func S self f args
  | MKind.api_func => to_json.api_func S self f args
  | MKind.plain_method => to_json.plain_method S self f args
  | MKind.api_method => to_json.api_method S self f args

/-- The free-function dispatch method for a serializer type
(lines 258-261 and 269-272). -/
def funcKind (st : SType) : MKind :=
  if st = SType.plain then MKind.plain_func else MKind.api_func

/-- The bound-method dispatch method for a serializer type
(lines 264-267). -/
def methodKind (st : SType) : MKind :=
  if st = SType.plain then MKind.plain_method else MKind.api_method

/-- One invocation of the wrapper (lines 253-274), with the mutable
self.method slot passed in and returned explicitly.  When the slot is
set, it is called directly.  When it is not: an empty argument tuple
first assigns the free-function fallback (lines 257-261) and then the
detection probe getattr(args[0], ...) at line 263 raises IndexError, so
the call fails with the slot left assigned; otherwise the convention is
detected from args[0] and the chosen method is stored and called. -/
def to_json.wrapper (S : DjangoSettings) (self : to_json) (f : HandlerF)
    (method : Option MKind) (args : List Arg) :
    Option MKind × Except Exc HttpResponse :=
  match method with
  | some m => (some m, to_json.dispatch S self m f args)
  | none =>
      match args with
      | [] => (some (funcKind self.serializer_type), Except.error indexError)
      | a :: _ =>
          let m := if a.bound then methodKind self.serializer_type
                   else funcKind self.serializer_type
          (some m, to_json.dispatch S self m f args)

/-- The self.method slot after a sequence of wrapper invocations. -/
def to_json.wrapper_states (S : DjangoSettings) (self : to_json) (f : HandlerF) :
    Option MKind → List (List Arg) → Option MKind
  | st, [] => st
  | st, args :: rest =>
      to_json.wrapper_states S self f (to_json.wrapper S self f st args).1 rest

/-! Concrete instances used by the witness theorems. -/

/-- Settings without either JSONRESPONSE attribute. -/
def S0 : DjangoSettings := DjangoSettings.mk none none

/-- A request with an empty query string. -/
def req_empty : Request := Request.mk []

/-- A request carrying format=jsonp and callback=cb. -/
def req_jsonp : Request := Request.mk [("format", "jsonp"), ("callback", "cb")]

/-- A request carrying raise=1. -/
def req_raise1 : Request := Request.mk [("raise", "1")]

/-- A request carrying debug=1. -/
def req_debug1 : Request := Request.mk [("debug", "1")]

/-- to_json("api") with the constructor defaults. -/
def api0 : to_json := to_json.mk SType.api 500 defaultKw

/-- to_json("objects") with the constructor defaults. -/
def objects0 : to_json := to_json.mk SType.objects 500 defaultKw

/-- to_json("plain") with the constructor defaults. -/
def plain0 : to_json := to_json.mk SType.plain 500 defaultKw

/-- A generic fault: Exception("boom"). -/
def exc0 : Exc := Exc.mk (some "exceptions") none "Exception" "boom" false

/-- An entity-does-not-exist fault:
django.core.exceptions.ObjectDoesNotExist("Not found"). -/
def excODNE : Exc :=
  Exc.mk (some "django.core.exceptions") none "ObjectDoesNotExist" "Not found" true

/-- A handler that always raises exc0. -/
def f_err : HandlerF := fun _ => Except.error exc0

/-- A handler that returns the plain string "hello". -/
def f_hello : HandlerF := fun _ => Except.ok (Ret.pyval (PyVal.raw (JVal.str "hello")))

/-- A falsy serializable object whose serialize(request) returns the
string "x" (not the absence marker). -/
def oFalsy : SObj := SObj.mk false (fun _ => JVal.str "x")

/-- The positional argument holding req_empty, probed as a free-function
convention. -/
def arg_req0 : Arg := Arg.mk false req_empty

/-- render_data passes the status argument through unchanged in both the
json and the jsonp branch. -/
theorem render_data_status (S : DjangoSettings) (self : to_json) (req : Request)
    (data : JVal) (status : Nat) :
    (to_json.render_data S self req data status).status = status := by
  unfold to_json.render_data
  by_cases h : req.getD "format" "json" = "jsonp" <;> simp [h]

/-- Outside jsonp mode, render_data produces the bare JSON text with the
application/json content type. -/
theorem render_data_json (S : DjangoSettings) (self : to_json) (req : Request)
    (data : JVal) (status : Nat) (h : req.getD "format" "json" ≠ "jsonp") :
    to_json.render_data S self req data status =
      HttpResponse.mk (json.dumps (to_json.dump_kwargs S self req) data)
        "application/json; charset=UTF-8" status := by
  unfold to_json.render_data
  simp [h]

/-- Under format=jsonp, render_data wraps the JSON text in a call of the
callback name with the application/javascript content type. -/
theorem render_data_jsonp (S : DjangoSettings) (self : to_json) (req : Request)
    (data : JVal) (status : Nat) (h : req.getD "format" "json" = "jsonp") :
    to_json.render_data S self req data status =
      HttpResponse.mk
        (req.getD "callback" (CALLBACK_NAME S) ++ "(" ++
          json.dumps (to_json.dump_kwargs S self req) data ++ ");")
        "application/javascript; charset=UTF-8" status := by
  unfold to_json.render_data
  simp [h]

/-- C9: for every wrapped handler, the calling convention is detected on
the first invocation (the self.method slot is always set afterwards, to
one fixed dispatch method m), every subsequent invocation leaves the slot
at m, and an invocation with the slot set at m goes straight to dispatch
through m — the detection logic of the slot-unset branch is never
re-evaluated. -/
theorem c9_memoized_dispatch (S : DjangoSettings) (self : to_json) (f : HandlerF)
    (args1 : List Arg) (rest : List (List Arg)) :
    ∃ m : MKind,
      (to_json.wrapper S self f none args1).1 = some m ∧
      to_json.wrapper_states S self f (some m) rest = some m ∧
      ∀ args, to_json.wrapper S self f (some m) args =
        (some m, to_json.dispatch S self m f args) := by
  have hstep : ∀ (m : MKind) (args : List Arg),
      to_json.wrapper S self f (some m) args =
        (some m, to_json.dispatch S self m f args) := fun _ _ => rfl
  have hfix : ∀ (m : MKind) (r : List (List Arg)),
      to_json.wrapper_states S self f (some m) r = some m := by
    intro m r
    induction r with
    | nil => rfl
    | cons a t ih => exact ih
  cases args1 with
  | nil => exact ⟨funcKind self.serializer_type, rfl, hfix _ _, hstep _⟩
  | cons a t =>
      exact ⟨if a.bound then methodKind self.serializer_type
             else funcKind self.serializer_type, rfl, hfix _ _, hstep _⟩

/-- C10: invoking a wrapper whose dispatch slot is still unset with zero
positional arguments assigns the free-function fallback method but then
fails with IndexError from the detection probe at line 263, before the
handler is ever invoked — the result does not depend on the handler at
all, and the call never succeeds. -/
theorem c10_zero_args (S : DjangoSettings) (self : to_json) (f g : HandlerF) :
    to_json.wrapper S self f none [] =
      (some (funcKind self.serializer_type), Except.error indexError) ∧
    to_json.wrapper S self f none [] = to_json.wrapper S self g none [] :=
  ⟨rfl, rfl⟩

/-- C5: a fault raised by a Plain-mode handler propagates to the caller
unchanged, for any fault and any arguments, under both the free-function
and the bound-method dispatch: plain mode never intercepts and never
builds an error envelope. -/
theorem c5_plain_never_intercepts (S : DjangoSettings) (self : to_json)
    (f : HandlerF) (args : List Arg) (e : Exc) (hf : f args = Except.error e) :
    to_json.plain_func S self f args = Except.error e ∧
    to_json.plain_method S self f args = Except.error e := by
  constructor <;> simp [to_json.plain_func, to_json.plain_method, hf]

/-- Witness for C5 at a concrete faulting handler. -/
theorem c5_plain_never_intercepts_witness :
    f_err [arg_req0] = Except.error exc0 ∧
    (to_json.plain_func S0 plain0 f_err [arg_req0] = Except.error exc0 ∧
     to_json.plain_method S0 plain0 f_err [arg_req0] = Except.error exc0) :=
  ⟨rfl, c5_plain_never_intercepts S0 plain0 f_err [arg_req0] exc0 rfl⟩

/-- C6: when the request carries the directive raise=1, a fault raised by
an Api-mode (or Objects-mode — the except branch is shared) handler is
re-raised to the caller instead of being rendered as an error
envelope. -/
theorem c6_raise_directive (S : DjangoSettings) (self : to_json) (req : Request)
    (e : Exc) (h : req.getP "raise" = some "1") :
    to_json.api S self req (Except.error e) = Except.error e := by
  have h1 : pyInt "1" = some 1 := by decide
  simp [to_json.api, to_json.on_error, h, h1]

/-- Witness for C6 at a concrete request carrying raise=1. -/
theorem c6_raise_directive_witness :
    req_raise1.getP "raise" = some "1" ∧
    to_json.api S0 api0 req_raise1 (Except.error exc0) = Except.error exc0 :=
  ⟨rfl, c6_raise_directive S0 api0 req_raise1 exc0 rfl⟩

/-- C1: an Api-mode handler returning a JSON-serializable value v (not an
already-built response) renders as the envelope dict with err 0 and v
passed into the data field unchanged (no Objects-style shaping), with
status 200; outside jsonp mode the body is exactly the JSON text of that
envelope. -/
theorem c1_api_success_envelope (S : DjangoSettings) (self : to_json)
    (req : Request) (v : JVal) (hmode : self.serializer_type = SType.api) :
    to_json.api S self req (Except.ok (Ret.pyval (PyVal.raw v))) =
      Except.ok (to_json.render_data S self req
        (JVal.obj [("err", JVal.num 0), ("data", v)]) 200) ∧
    (to_json.render_data S self req
      (JVal.obj [("err", JVal.num 0), ("data", v)]) 200).status = 200 ∧
    (req.getD "format" "json" ≠ "jsonp" →
      (to_json.render_data S self req
        (JVal.obj [("err", JVal.num 0), ("data", v)]) 200).body =
        json.dumps (to_json.dump_kwargs S self req)
          (JVal.obj [("err", JVal.num 0), ("data", v)])) := by
  refine ⟨?_, render_data_status S self req _ 200, ?_⟩
  · simp [to_json.api, to_json.obj_to_response, hmode, pyValToJson]
  · intro h
    rw [render_data_json S self req _ 200 h]

/-- Witness for C1 at a concrete Api-mode configuration and request. -/
theorem c1_api_success_envelope_witness :
    api0.serializer_type = SType.api ∧
    (to_json.api S0 api0 req_empty (Except.ok (Ret.pyval (PyVal.raw (JVal.str "ok")))) =
      Except.ok (to_json.render_data S0 api0 req_empty
        (JVal.obj [("err", JVal.num 0), ("data", JVal.str "ok")]) 200) ∧
    (to_json.render_data S0 api0 req_empty
      (JVal.obj [("err", JVal.num 0), ("data", JVal.str "ok")]) 200).status = 200 ∧
    (req_empty.getD "format" "json" ≠ "jsonp" →
      (to_json.render_data S0 api0 req_empty
        (JVal.obj [("err", JVal.num 0), ("data", JVal.str "ok")]) 200).body =
        json.dumps (to_json.dump_kwargs S0 api0 req_empty)
          (JVal.obj [("err", JVal.num 0), ("data", JVal.str "ok")]))) :=
  ⟨rfl, c1_api_success_envelope S0 api0 req_empty (JVal.str "ok") rfl⟩

/-- C4: a Plain-mode handler returning a JSON-serializable value v (not
an already-built response) renders v directly — no envelope — with
status 200 (the implicit default of render_data); outside jsonp mode the
body is exactly the JSON text of v. -/
theorem c4_plain_success (S : DjangoSettings) (self : to_json) (f : HandlerF)
    (args : List Arg) (a : Arg) (v : JVal)
    (hf : f args = Except.ok (Ret.pyval (PyVal.raw v)))
    (ha : args.head? = some a) :
    to_json.plain_func S self f args =
      Except.ok (to_json.render_data S self a.req v 200) ∧
    (to_json.render_data S self a.req v 200).status = 200 ∧
    (a.req.getD "format" "json" ≠ "jsonp" →
      (to_json.render_data S self a.req v 200).body =
        json.dumps (to_json.dump_kwargs S self a.req) v) := by
  refine ⟨?_, render_data_status S self a.req v 200, ?_⟩
  · simp [to_json.plain_func, hf, ha, pyValToJson]
  · intro h
    rw [render_data_json S self a.req v 200 h]

/-- Witness for C4 at a concrete Plain-mode configuration and request. -/
theorem c4_plain_success_witness :
    f_hello [arg_req0] = Except.ok (Ret.pyval (PyVal.raw (JVal.str "hello"))) ∧
    [arg_req0].head? = some arg_req0 ∧
    (to_json.plain_func S0 plain0 f_hello [arg_req0] =
      Except.ok (to_json.render_data S0 plain0 arg_req0.req (JVal.str "hello") 200) ∧
    (to_json.render_data S0 plain0 arg_req0.req (JVal.str "hello") 200).status = 200 ∧
    (arg_req0.req.getD "format" "json" ≠ "jsonp" →
      (to_json.render_data S0 plain0 arg_req0.req (JVal.str "hello") 200).body =
        json.dumps (to_json.dump_kwargs S0 plain0 arg_req0.req) (JVal.str "hello"))) :=
  ⟨rfl, rfl, c4_plain_success S0 plain0 f_hello [arg_req0] arg_req0 (JVal.str "hello") rfl rfl⟩

/-- C2: a fault e raised by an Api-mode or Objects-mode handler (the
except branch is shared and independent of the serializer type), when the
raise directive is absent, renders as the error envelope with err 1, the
qualified class name module-dot (plus owner-dot when the owner attribute
is present) plus class name, err_desc str(e) and data null; the status is
404 when e is an ObjectDoesNotExist and the configured error status (500
by the constructor default) otherwise, whatever the kind of e.  Outside
jsonp mode the body is exactly the JSON text of that envelope. -/
theorem c2_api_error_envelope (S : DjangoSettings) (self : to_json)
    (req : Request) (e : Exc) (m : String)
    (hm : e.module = some m) (hr : req.getP "raise" = none) :
    to_json.api S self req (Except.error e) =
      Except.ok (to_json.render_data S self req
        (JVal.obj [("err", JVal.num 1),
                   ("err_class", JVal.str
                     (m ++ "." ++ e.owner.elim "" (fun o => o ++ ".") ++ e.className)),
                   ("err_desc", JVal.str e.desc),
                   ("data", JVal.null)])
        (if e.isODNE then 404 else self.error_code)) ∧
    (e.isODNE = true →
      (to_json.render_data S self req (to_json.err_to_response e)
        (if e.isODNE then 404 else self.error_code)).status = 404) ∧
    (e.isODNE = false →
      (to_json.render_data S self req (to_json.err_to_response e)
        (if e.isODNE then 404 else self.error_code)).status = self.error_code) ∧
    (req.getD "format" "json" ≠ "jsonp" →
      (to_json.render_data S self req (to_json.err_to_response e)
        (if e.isODNE then 404 else self.error_code)).body =
        json.dumps (to_json.dump_kwargs S self req) (to_json.err_to_response e)) ∧
    (to_json_init SType.api).error_code = 500 := by
  refine ⟨?_, ?_, ?_, ?_, rfl⟩
  · have henv : to_json.err_to_response e =
        JVal.obj [("err", JVal.num 1),
                  ("err_class", JVal.str
                    (m ++ "." ++ e.owner.elim "" (fun o => o ++ ".") ++ e.className)),
                  ("err_desc", JVal.str e.desc),
                  ("data", JVal.null)] := by
      cases ho : e.owner <;>
        simp [to_json.err_to_response, hm, ho, String.append_assoc]
    simp [to_json.api, to_json.on_error, hr, henv]
  · intro h
    rw [h, if_pos rfl, render_data_status]
  · intro h
    rw [h, if_neg (by simp), render_data_status]
  · intro h
    rw [render_data_json S self req _ _ h]

/-- Witness for C2 at a concrete entity-does-not-exist fault. -/
theorem c2_api_error_envelope_witness :
    excODNE.module = some "django.core.exceptions" ∧
    req_empty.getP "raise" = none ∧
    (to_json.api S0 api0 req_empty (Except.error excODNE) =
      Except.ok (to_json.render_data S0 api0 req_empty
        (JVal.obj [("err", JVal.num 1),
                   ("err_class", JVal.str
                     ("django.core.exceptions" ++ "." ++
                       excODNE.owner.elim "" (fun o => o ++ ".") ++ excODNE.className)),
                   ("err_desc", JVal.str excODNE.desc),
                   ("data", JVal.null)])
        (if excODNE.isODNE then 404 else api0.error_code)) ∧
    (excODNE.isODNE = true →
      (to_json.render_data S0 api0 req_empty (to_json.err_to_response excODNE)
        (if excODNE.isODNE then 404 else api0.error_code)).status = 404) ∧
    (excODNE.isODNE = false →
      (to_json.render_data S0 api0 req_empty (to_json.err_to_response excODNE)
        (if excODNE.isODNE then 404 else api0.error_code)).status = api0.error_code) ∧
    (req_empty.getD "format" "json" ≠ "jsonp" →
      (to_json.render_data S0 api0 req_empty (to_json.err_to_response excODNE)
        (if excODNE.isODNE then 404 else api0.error_code)).body =
        json.dumps (to_json.dump_kwargs S0 api0 req_empty)
          (to_json.err_to_response excODNE)) ∧
    (to_json_init SType.api).error_code = 500) :=
  ⟨rfl, rfl, c2_api_error_envelope S0 api0 req_empty excODNE "django.core.exceptions" rfl rfl⟩

/-- C7: under the directive format=jsonp the rendered body is
callbackName(json); where json is the JSON text that would otherwise be
the body (json.dumps of the data under the same keyword arguments), and
the content type is application/javascript; charset=UTF-8.  The callback
name is the callback query directive when present, otherwise the
process-wide CALLBACK_NAME, which itself defaults to "callback" when the
settings attribute is absent. -/
theorem c7_jsonp (S : DjangoSettings) (self : to_json) (req : Request)
    (d : JVal) (status : Nat) (h : req.getD "format" "json" = "jsonp") :
    (to_json.render_data S self req d status).body =
      req.getD "callback" (CALLBACK_NAME S) ++ "(" ++
        json.dumps (to_json.dump_kwargs S self req) d ++ ");" ∧
    (to_json.render_data S self req d status).content_type =
      "application/javascript; charset=UTF-8" ∧
    (∀ c, req.getP "callback" = some c →
      req.getD "callback" (CALLBACK_NAME S) = c) ∧
    (req.getP "callback" = none →
      req.getD "callback" (CALLBACK_NAME S) = CALLBACK_NAME S) ∧
    (S.JSONRESPONSE_CALLBACK_NAME = none → CALLBACK_NAME S = "callback") := by
  refine ⟨?_, ?_, ?_, ?_, ?_⟩
  · rw [render_data_jsonp S self req d status h]
  · rw [render_data_jsonp S self req d status h]
  · intro c hc
    simp [Request.getD, hc]
  · intro hc
    simp [Request.getD, hc]
  · intro hs
    simp [CALLBACK_NAME, hs]

/-- Witness for C7 at a concrete request carrying format=jsonp and
callback=cb. -/
theorem c7_jsonp_witness :
    req_jsonp.getD "format" "json" = "jsonp" ∧
    ((to_json.render_data S0 api0 req_jsonp (JVal.str "ok") 200).body =
      req_jsonp.getD "callback" (CALLBACK_NAME S0) ++ "(" ++
        json.dumps (to_json.dump_kwargs S0 api0 req_jsonp) (JVal.str "ok") ++ ");" ∧
    (to_json.render_data S0 api0 req_jsonp (JVal.str "ok") 200).content_type =
      "application/javascript; charset=UTF-8" ∧
    (∀ c, req_jsonp.getP "callback" = some c →
      req_jsonp.getD "callback" (CALLBACK_NAME S0) = c) ∧
    (req_jsonp.getP "callback" = none →
      req_jsonp.getD "callback" (CALLBACK_NAME S0) = CALLBACK_NAME S0) ∧
    (S0.JSONRESPONSE_CALLBACK_NAME = none → CALLBACK_NAME S0 = "callback")) :=
  ⟨rfl, c7_jsonp S0 api0 req_jsonp (JVal.str "ok") 200 rfl⟩

/-- C8: outside jsonp mode, a truthy debug directive (a value whose
lowercasing is true, t, 1 or on — likewise the decode directive, and
likewise a true process-wide default) switches the JSON encoding to the
keyword arguments with indent 4 and ensure_ascii off, while with a false
process-wide default and both directives absent the constructor keyword
arguments are used unchanged (by default: compact, ASCII-escaped). -/
theorem c8_debug_directive (S : DjangoSettings) (self : to_json) (req : Request)
    (d : JVal) (status : Nat) (hfmt : req.getD "format" "json" ≠ "jsonp") :
    (truthyStrs.contains (pyLower (req.getD "debug" "false")) = true →
      (to_json.render_data S self req d status).body =
        json.dumps (DumpKw.mk (some 4) false self.kwargs.separators) d) ∧
    (truthyStrs.contains (pyLower (req.getD "decode" "0")) = true →
      (to_json.render_data S self req d status).body =
        json.dumps (DumpKw.mk (some 4) false self.kwargs.separators) d) ∧
    (DEFAULT_DEBUG S = true →
      (to_json.render_data S self req d status).body =
        json.dumps (DumpKw.mk (some 4) false self.kwargs.separators) d) ∧
    (DEFAULT_DEBUG S = false → req.getP "debug" = none → req.getP "decode" = none →
      (to_json.render_data S self req d status).body =
        json.dumps self.kwargs d) ∧
    (S.JSONRESPONSE_DEFAULT_DEBUG = none → DEFAULT_DEBUG S = false) := by
  rw [render_data_json S self req d status hfmt]
  refine ⟨?_, ?_, ?_, ?_, ?_⟩
  · intro h
    simp at h
    simp [to_json.dump_kwargs, h]
  · intro h
    simp at h
    simp [to_json.dump_kwargs, h]
  · intro h
    simp [to_json.dump_kwargs, h]
  · intro hS hdebug hdecode
    have hd1 : req.getD "debug" "false" = "false" := by
      simp [Request.getD, hdebug]
    have hd2 : req.getD "decode" "0" = "0" := by
      simp [Request.getD, hdecode]
    simp only [to_json.dump_kwargs, hS, hd1, hd2]
    rw [if_neg (by decide)]
  · intro hs
    simp [DEFAULT_DEBUG, hs]

/-- Witness for C8 at a concrete request carrying debug=1. -/
theorem c8_debug_directive_witness :
    req_debug1.getD "format" "json" ≠ "jsonp" ∧
    truthyStrs.contains (pyLower (req_debug1.getD "debug" "false")) = true ∧
    (to_json.render_data S0 api0 req_debug1 (JVal.str "ok") 200).body =
      json.dumps (DumpKw.mk (some 4) false api0.kwargs.separators) (JVal.str "ok") := by
  refine ⟨by decide, by decide, ?_⟩
  exact (c8_debug_directive S0 api0 req_debug1 (JVal.str "ok") 200 (by decide)).1 (by decide)

/-- C3, counterexample: an Objects-mode handler returning the one-element
sequence [oFalsy], whose element is falsy, has that element serialized —
its serialize(request) result, the string "x", lands in the shaped data —
rather than replaced by the absence marker null as the claim states: the
conditional in the comprehension tests the truthiness of the whole
sequence, not of the element. -/
theorem c3_falsy_element_counterexample :
    to_json.obj_to_response objects0 req_empty (PyVal.seqOf [oFalsy]) =
      Except.ok (0, PyVal.raw (JVal.arr [JVal.str "x"])) ∧
    oFalsy.truthy = false ∧
    to_json.obj_to_response objects0 req_empty (PyVal.seqOf [oFalsy]) ≠
      Except.ok (0, PyVal.raw (JVal.arr [JVal.null])) := by
  refine ⟨rfl, rfl, ?_⟩
  simp [to_json.obj_to_response, objects0, objectsData, oFalsy, Except.map]

/-- C3, amended: for every Objects-mode handler returning a sequence,
every element — falsy or not — is mapped through its serialize(request)
capability before being wrapped in the envelope (the per-element
conditional tests the whole sequence's truthiness, so it only bites on a
sequence that is falsy yet yields elements, which a list never is; an
empty sequence yields the empty list); a falsy single non-sequence return
value, and in particular a None return, becomes the absence marker
null. -/
theorem c3_objects_shaping (self : to_json) (req : Request)
    (l : List SObj) (o : SObj)
    (hmode : self.serializer_type = SType.objects) (ho : o.truthy = false) :
    to_json.obj_to_response self req (PyVal.seqOf l) =
      Except.ok (0, PyVal.raw (JVal.arr (l.map (fun x => x.serialize req)))) ∧
    to_json.obj_to_response self req (PyVal.single o) =
      Except.ok (0, PyVal.raw JVal.null) ∧
    to_json.obj_to_response self req (PyVal.raw JVal.null) =
      Except.ok (0, PyVal.raw JVal.null) := by
  refine ⟨?_, ?_, ?_⟩
  · cases l with
    | nil => simp [to_json.obj_to_response, hmode, objectsData, Except.map]
    | cons a t => simp [to_json.obj_to_response, hmode, objectsData, Except.map]
  · simp [to_json.obj_to_response, hmode, objectsData, ho, Except.map]
  · simp [to_json.obj_to_response, hmode, objectsData, jIterable, jTruthy, Except.map]

/-- Witness for the amended C3 at a concrete falsy object and one-element
sequence. -/
theorem c3_objects_shaping_witness :
    objects0.serializer_type = SType.objects ∧
    oFalsy.truthy = false ∧
    (to_json.obj_to_response objects0 req_empty (PyVal.seqOf [oFalsy]) =
      Except.ok (0, PyVal.raw (JVal.arr ([oFalsy].map (fun x => x.serialize req_empty)))) ∧
    to_json.obj_to_response objects0 req_empty (PyVal.single oFalsy) =
      Except.ok (0, PyVal.raw JVal.null) ∧
    to_json.obj_to_response objects0 req_empty (PyVal.raw JVal.null) =
      Except.ok (0, PyVal.raw JVal.null)) :=
  ⟨rfl, rfl, c3_objects_shaping objects0 req_empty [oFalsy] oFalsy rfl rfl⟩
